import Mathlib

/-!
Verification of the country-dashboard / country-chatbot repository.

The Lean definitions below are a shallow embedding of the Python sources:

* `getCountryDataT` embeds `get_country_data` from
  `pages/Country_Chatbot.py` (lines 31-58) and `pages/Country_Insight.py`
  (lines 39-65); the two bodies are identical except for the key name of the
  flag field.  The unknown network is a `LookupWorld` parameter; the second
  component of the result counts HTTP requests issued.  Python exceptions
  raised inside the guarded `try` block (for example indexing an empty
  `capital` list) are caught by the bare `except` and become `none`, exactly
  as in the source.
* `getAllCountriesT` embeds `CountryAnalyzer.get_all_countries` and
  `get_countries_by_regions` from `pages/Country_Analysis.py` (lines 48-87),
  instrumented with the requests issued and with which branch produced the
  data; the branches are observable in the source through the distinct
  `st.success`/`st.warning` messages they emit.
* `filterCountries`, `sortCountries` and `dashboard` embed the filter /
  sort / truncate / statistics pipeline of `main` in
  `pages/Country_Analysis.py` (lines 422-455).  Python's `list.sort` is
  specified to be a stable sort (with `reverse=True` comparing reversed),
  which the insertion sort `sortListBy` realises: an element is placed
  before exactly the later-input elements it must precede.
* `buildPrompt`, `askGeminiT`, `chatStep` and `runChat` embed
  `build_prompt`, `ask_gemini` and the chat-input handler of
  `pages/Country_Chatbot.py` (lines 61-108, 111-136, 160-187).
* `generateInsightT` embeds `generate_country_insight` of
  `pages/Country_Insight.py` (lines 84-130).

Numbers: populations are `ℕ`, areas are `ℚ` (Python floats are used only
additively and comparatively here); Python's locale-free `str` rendering of
numbers inside prompts is abstracted by `toString`, which no theorem below
depends on.  JSON objects are modelled by records of `Option`-fields
(`none` = key missing); the claims under study only concern present-vs-
missing keys, not explicit JSON `null` values.
-/

/-! ### The single-country fetcher of the chatbot and insight pages -/

/-- The `name` sub-object of a REST-countries payload: `{"common": …,
"official": …}`, each key possibly missing. -/
structure NameObj where
  common : Option String
  official : Option String
deriving Repr, DecidableEq

/-- One element of the JSON array returned by `GET {base}/name/{name}`,
restricted to the keys read by `get_country_data`.  A `none` field models a
missing key.  `languages` carries the value list of the languages object and
`currencies` the key list of the currencies object, in insertion order, as
produced by `.values()` / `.keys()`. -/
structure Payload where
  name : Option NameObj
  capital : Option (List String)
  region : Option String
  subregion : Option String
  population : Option ℕ
  area : Option ℚ
  languages : Option (List String)
  currencies : Option (List String)
  flag : Option String
deriving Repr, DecidableEq

/-- The normalized dictionary built by `get_country_data`.  The fields
mirror the Python dict; `name`/`official_name` are `Option` because
`country.get("name", {}).get("common")` yields Python `None` when the key
is missing, while every other field is given an inline default. -/
structure CRecord where
  name : Option String
  official_name : Option String
  capital : String
  region : String
  subregion : String
  population : ℕ
  area : ℚ
  languages : List String
  currencies : List String
  flag : String
deriving Repr, DecidableEq

/-- Outcome of one HTTP GET against the country directory:
status 200 with a decoded JSON array, a non-success status, or a raised
request/decoding exception. -/
inductive LookupOutcome where
  | ok (data : List Payload)
  | badStatus
  | netError
deriving Repr, DecidableEq

/-- The directory service as seen by `get_country_data`: what
`GET {base}/name/{s}` would produce for each query string `s`. -/
def LookupWorld : Type := String → LookupOutcome

/-- The dict construction of `get_country_data` (lines 42-53 of
`Country_Chatbot.py`): every field via `.get` with its inline default.
`capital` is `country.get("capital", ["Unknown"])[0]`; when the key is
present but the list is empty the indexing raises `IndexError`, which the
enclosing `except` turns into `None` — modelled by the `none` result. -/
def recordOfPayload (p : Payload) : Option CRecord :=
  match p.capital with
  | some [] => none
  | some (c :: _) =>
    some { name := p.name.bind NameObj.common
           official_name := p.name.bind NameObj.official
           capital := c
           region := p.region.getD "Unknown"
           subregion := p.subregion.getD "Unknown"
           population := p.population.getD 0
           area := p.area.getD 0
           languages := p.languages.getD []
           currencies := p.currencies.getD []
           flag := p.flag.getD "" }
  | none =>
    some { name := p.name.bind NameObj.common
           official_name := p.name.bind NameObj.official
           capital := "Unknown"
           region := p.region.getD "Unknown"
           subregion := p.subregion.getD "Unknown"
           population := p.population.getD 0
           area := p.area.getD 0
           languages := p.languages.getD []
           currencies := p.currencies.getD []
           flag := p.flag.getD "" }

/-- `get_country_data`, instrumented with the number of HTTP requests
issued.  `if not country_name: return None` fires exactly on the empty
string (the only falsy `str`); every failure path of the source returns
`None`: non-200 status, empty array, raised exception. -/
def getCountryDataT (w : LookupWorld) (s : String) : Option CRecord × ℕ :=
  if s = "" then (none, 0)
  else
    match w s with
    | .ok [] => (none, 1)
    | .ok (p :: _) => (recordOfPayload p, 1)
    | .badStatus => (none, 1)
    | .netError => (none, 1)

/-- The value returned to the caller of `get_country_data`. -/
def getCountryData (w : LookupWorld) (s : String) : Option CRecord :=
  (getCountryDataT w s).1

/-! ### The bulk fetcher of the analysis page -/

/-- One country as consumed by the dashboard pipeline of
`Country_Analysis.main`: only the fields that the filter, the sort keys and
the statistics read (`name.common`, `population`, `area`, `region`, each
already passed through its `.get` default). -/
structure AnalysisCountry where
  name : String
  population : ℕ
  area : ℚ
  region : String
deriving Repr, DecidableEq

/-- Outcome of one bulk HTTP GET (`/all` or `/region/{r}`). -/
inductive FetchOutcome where
  | ok (data : List AnalysisCountry)
  | badStatus
  | netError
deriving Repr, DecidableEq

/-- The directory service as seen by the analysis page: the outcome of the
`/all` request and of each `/region/{r}` request. -/
structure BulkWorld where
  allResp : FetchOutcome
  regionResp : String → FetchOutcome

/-- The regions hard-coded in `get_countries_by_regions` (line 70). -/
def regionsList : List String := ["africa", "americas", "asia", "europe", "oceania"]

/-- The ten hard-coded records of `CountryAnalyzer.get_sample_data`
(lines 89-183), projected to the fields of `AnalysisCountry`. -/
def sampleData : List AnalysisCountry :=
  [ ⟨"United States", 331002651, 9833517, "Americas"⟩
  , ⟨"India", 1380004385, 3287263, "Asia"⟩
  , ⟨"China", 1402112000, 9706961, "Asia"⟩
  , ⟨"Brazil", 212559417, 8515767, "Americas"⟩
  , ⟨"Germany", 83240525, 357114, "Europe"⟩
  , ⟨"Nigeria", 206139587, 923768, "Africa"⟩
  , ⟨"Australia", 25499884, 7692024, "Oceania"⟩
  , ⟨"Canada", 38005238, 9984670, "Americas"⟩
  , ⟨"Japan", 125836021, 377930, "Asia"⟩
  , ⟨"France", 67391582, 551695, "Europe"⟩ ]

/-- An HTTP request issued by the bulk fetcher. -/
inductive Request where
  | reqAll
  | reqRegion (r : String)
deriving Repr, DecidableEq

/-- Which branch of the fallback produced the data; the three branches are
observable in the source through their distinct status messages
(`"Live data loaded successfully!"`, `"Live data loaded by regions!"`,
`"Using sample data…"`). -/
inductive DataSource where
  | fromAll
  | fromRegions
  | fromSample
deriving Repr, DecidableEq

/-- `get_countries_by_regions` (lines 68-87): query every region in order,
`extend` on each 200 response, skip on any failure; return the collected
list when non-empty, else the sample set. -/
def getCountriesByRegionsT (w : BulkWorld) :
    List AnalysisCountry × DataSource × List Request :=
  let collected := regionsList.flatMap fun r =>
    match w.regionResp r with
    | .ok d => d
    | .badStatus => []
    | .netError => []
  if collected = [] then (sampleData, .fromSample, regionsList.map Request.reqRegion)
  else (collected, .fromRegions, regionsList.map Request.reqRegion)

/-- `get_all_countries` (lines 48-66): try `/all`; on status 200 with a
non-empty array return it; on status 200 with an empty array or a non-200
status fall through to the per-region fallback (still inside the `try`);
on a raised `RequestException` the `except` clause returns the sample data
directly, without any region request. -/
def getAllCountriesT (w : BulkWorld) :
    List AnalysisCountry × DataSource × List Request :=
  match w.allResp with
  | .ok data =>
    if data = [] then
      match getCountriesByRegionsT w with
      | (d, src, reqs) => (d, src, Request.reqAll :: reqs)
    else (data, .fromAll, [Request.reqAll])
  | .badStatus =>
    match getCountriesByRegionsT w with
    | (d, src, reqs) => (d, src, Request.reqAll :: reqs)
  | .netError => (sampleData, .fromSample, [Request.reqAll])

/-! ### The dashboard pipeline of the analysis page -/

/-- The three values of the `"Sort Countries By"` selector. -/
inductive SortKey where
  | population
  | area
  | name
deriving Repr, DecidableEq

/-- The sidebar inputs consumed by the pipeline of `main`. -/
structure FilterSpec where
  region : String
  minPopulation : ℕ
  resultCap : ℕ
  sortKey : SortKey

/-- Insert `x` into `l` in front of the first element `y` with `r x y`;
used from the back of the list, this realises a stable sort for the
relation `r`. -/
def insertStable (r : AnalysisCountry → AnalysisCountry → Bool)
    (x : AnalysisCountry) : List AnalysisCountry → List AnalysisCountry
  | [] => [x]
  | y :: ys => if r x y then x :: y :: ys else y :: insertStable r x ys

/-- Stable sort by the relation `r` (`r x y` = “`x` may stay in front of
`y`”): the semantics of Python's stable `list.sort`. -/
def sortListBy (r : AnalysisCountry → AnalysisCountry → Bool)
    (l : List AnalysisCountry) : List AnalysisCountry :=
  l.foldr (insertStable r) []

/-- The three `filtered_countries.sort(…)` calls of `main` (lines 437-442):
population and area with `reverse=True` (descending), name ascending. -/
def sortCountries (k : SortKey) (l : List AnalysisCountry) : List AnalysisCountry :=
  match k with
  | .population => sortListBy (fun a b => decide (b.population ≤ a.population)) l
  | .area => sortListBy (fun a b => decide (b.area ≤ a.area)) l
  | .name => sortListBy (fun a b => decide (a.name ≤ b.name)) l

/-- The filter loop of `main` (lines 423-434): keep a record iff the region
matches (or `"All"` is selected) and the population is at least the
minimum. -/
def filterCountries (region : String) (minPopulation : ℕ)
    (l : List AnalysisCountry) : List AnalysisCountry :=
  l.filter fun c => (region = "All" ∨ c.region = region) ∧ minPopulation ≤ c.population

/-- The summary metrics of `main` (lines 452-455) together with the shown
list. `averagePopulation` is the exact rational `total/count` (`0` when the
count is `0`). -/
structure DashResult where
  shown : List AnalysisCountry
  totalCount : ℕ
  totalPopulation : ℕ
  averagePopulation : ℚ
  totalArea : ℚ
deriving Repr, DecidableEq

/-- The pipeline of `main` (lines 422-455) in source order: filter, sort,
truncate to `resultCap` (`filtered_countries[:country_limit]`), then compute
the four summary metrics from the truncated list. -/
def dashboard (data : List AnalysisCountry) (f : FilterSpec) : DashResult :=
  let filtered := filterCountries f.region f.minPopulation data
  let sorted := sortCountries f.sortKey filtered
  let shown := sorted.take f.resultCap
  let totalCount := shown.length
  let totalPopulation := (shown.map AnalysisCountry.population).sum
  { shown := shown
    totalCount := totalCount
    totalPopulation := totalPopulation
    averagePopulation :=
      if 0 < totalCount then (totalPopulation : ℚ) / (totalCount : ℚ) else 0
    totalArea := (shown.map AnalysisCountry.area).sum }

/-- Modelled from the spec: §4.5 and §8, the statistics “computed over the
shown (post-truncation) set”.  Used only to compare the source pipeline
against the spec's wording. -/
def specStats (shown : List AnalysisCountry) : ℕ × ℕ × ℚ × ℚ :=
  ( shown.length
  , (shown.map AnalysisCountry.population).sum
  , if 0 < shown.length
      then ((shown.map AnalysisCountry.population).sum : ℚ) / (shown.length : ℚ)
      else 0
  , (shown.map AnalysisCountry.area).sum )

/-! ### The chatbot page -/

/-- A chat-history entry: `{"role": …, "content": …}`. -/
inductive Role where
  | user
  | assistant
deriving Repr, DecidableEq

/-- One transcript entry of `st.session_state.chat_history`. -/
structure ChatTurn where
  role : Role
  content : String
deriving Repr, DecidableEq

/-- `msg['role'].upper()` for the two roles in use. -/
def roleUpper : Role → String
  | .user => "USER"
  | .assistant => "ASSISTANT"

/-- The line contributed by one turn to `history_str`
(`f"{msg['role'].upper()}: {msg['content']}\n"`). -/
def turnLine (t : ChatTurn) : String :=
  roleUpper t.role ++ ": " ++ t.content ++ "\n"

/-- The `history_str` accumulation loop of `build_prompt` (lines 71-73). -/
def historyStr : List ChatTurn → String
  | [] => ""
  | t :: ts => turnLine t ++ historyStr ts

/-- Python's `str` of an optional string: `None` prints as `"None"`. -/
def optStr : Option String → String
  | none => "None"
  | some s => s

/-- `', '.join(l)`. -/
def joinComma (l : List String) : String := String.intercalate ", " l

/-- The system-instruction literal of `build_prompt` (lines 63-68). -/
def chatSystemInstructions : String :=
  "You are a helpful assistant that answers questions about countries using data from the " ++
  "REST Countries API. If a detail is not included in the provided data, you may answer from " ++
  "general knowledge but state that it is not directly from the API. Keep responses clear, " ++
  "accurate, and friendly."

/-- The `country_info_str` block of `build_prompt` (lines 76-91): the
structured-data section when a record is available, literal
`"No country data available."` otherwise. -/
def countryInfoStr : Option CRecord → String
  | none => "No country data available."
  | some c =>
    "\nCountry data from REST Countries API:\n- Name: " ++ optStr c.name ++
    "\n- Official Name: " ++ optStr c.official_name ++
    "\n- Capital: " ++ c.capital ++
    "\n- Region: " ++ c.region ++
    "\n- Subregion: " ++ c.subregion ++
    "\n- Population: " ++ toString c.population ++
    "\n- Area: " ++ toString c.area ++ " km²" ++
    "\n- Languages: " ++ joinComma c.languages ++
    "\n- Currencies: " ++ joinComma c.currencies ++
    "\n- Flag: " ++ c.flag ++ "\n"

/-- The final f-string of `build_prompt` (lines 94-107). -/
def buildPrompt (chatHistory : List ChatTurn) (countryData : Option CRecord)
    (userMessage : String) : String :=
  "\n" ++ chatSystemInstructions ++
  "\n\nConversation so far:\n" ++ historyStr chatHistory ++
  "\n\nStructured REST Countries API info:\n" ++ countryInfoStr countryData ++
  "\n\nUser\x27s latest question:\n" ++ userMessage ++
  "\n\nNow respond as the assistant.\n"

/-- Outcome of one `model.generate_content` call: a response whose `.text`
is a string or `None`/missing, or a raised exception. -/
inductive GenOutcome where
  | text (t : Option String)
  | exn
deriving Repr, DecidableEq

/-- `ask_gemini` (lines 111-136), instrumented with the number of
generation-service calls made.  When `GEMINI_READY` is false it returns its
fixed message before touching the network; otherwise one call is made and
every outcome is converted to a string (`.strip()` on success). -/
def askGeminiT (geminiReady : Bool) (svc : String → GenOutcome)
    (prompt : String) : String × ℕ :=
  if geminiReady = false then
    ("Gemini is not available because the API key is not configured.", 0)
  else
    match svc prompt with
    | .text none => ("Gemini returned an empty response. Try asking in a different way.", 1)
    | .text (some t) => (t.trim, 1)
    | .exn =>
      ("Sorry, something went wrong while contacting the AI. " ++
       "Please try again in a moment.", 1)

/-- The ambient configuration of the chatbot page: whether Gemini
configuration succeeded, and the generation service itself. -/
structure ChatCfg where
  geminiReady : Bool
  svc : String → GenOutcome

/-- The prompt composed by the chat-input handler: the user turn is
appended to the history first (line 164), then `build_prompt` receives the
full updated history and, separately, the same `user_message`
(lines 170-174). -/
def handlerPrompt (countryData : Option CRecord) (hist : List ChatTurn)
    (m : String) : String :=
  buildPrompt (hist ++ [⟨.user, m⟩]) countryData m

/-- One pass of the chat-input handler (lines 162-183): a falsy (empty)
`user_message` does nothing; otherwise append the user turn, ask Gemini
with the composed prompt, append the assistant turn. -/
def chatStep (cfg : ChatCfg) (countryData : Option CRecord)
    (hist : List ChatTurn) (m : String) : List ChatTurn :=
  if m = "" then hist
  else
    (hist ++ [⟨.user, m⟩]) ++
      [⟨.assistant, (askGeminiT cfg.geminiReady cfg.svc (handlerPrompt countryData hist m)).1⟩]

/-- The transcript after a sequence of submissions, starting from the empty
history created at session start (line 139-140). -/
def runChat (cfg : ChatCfg) (countryData : Option CRecord)
    (msgs : List String) : List ChatTurn :=
  msgs.foldl (chatStep cfg countryData) []

/-! ### The insight page's generator -/

/-- The three positions of the `"Detail level"` slider (`1..3`), the only
keys of the `detail_text` dict. -/
inductive DetailLevel where
  | one
  | two
  | three
deriving Repr, DecidableEq

/-- The `detail_text` lookup of `generate_country_insight` (lines 99-103). -/
def detailText : DetailLevel → String
  | .one => "very short, 2–3 sentence overview"
  | .two => "medium-length explanation, around one short paragraph"
  | .three => "more detailed, 2–3 short paragraphs with key facts and commentary"

/-- `s or 'Unknown'` for a possibly-empty joined list. -/
def orUnknown (s : String) : String := if s = "" then "Unknown" else s

/-- `format_country_block` (lines 67-81). -/
def formatCountryBlock : Option CRecord → String
  | none => "No data available."
  | some c =>
    "Name: " ++ optStr c.name ++ " (official: " ++ optStr c.official_name ++ ")\n" ++
    "Capital: " ++ c.capital ++ "\n" ++
    "Region: " ++ c.region ++ " | Subregion: " ++ c.subregion ++ "\n" ++
    "Population: " ++ toString c.population ++ "\n" ++
    "Area: " ++ toString c.area ++ " km²\n" ++
    "Languages: " ++ orUnknown (joinComma c.languages) ++ "\n" ++
    "Currencies: " ++ orUnknown (joinComma c.currencies) ++ "\n" ++
    "Flag: " ++ c.flag ++ "\n"

/-- The system-instruction literal of `generate_country_insight`. -/
def insightSystemInstructions : String :=
  "You are an assistant that analyzes REST Countries API data. " ++
  "You must base concrete facts (like population, capital, region, area) on the provided data. " ++
  "If something is not in the data, say you are not sure instead of guessing. " ++
  "Write clearly, in paragraphs, and stay friendly and informative."

/-- The prompt f-string of `generate_country_insight` (lines 105-121). -/
def insightPrompt (primary : Option CRecord) (secondary : Option CRecord)
    (insightType : String) (detailLevel : DetailLevel) (extraNote : String) : String :=
  "\n" ++ insightSystemInstructions ++
  "\n\nInsight type requested: " ++ insightType ++
  "\nDesired detail level: " ++ detailText detailLevel ++
  "\n\nPrimary country data:\n" ++ formatCountryBlock primary ++
  "\n\nComparison country data:\n" ++
  (match secondary with
   | some s => formatCountryBlock (some s)
   | none => "No comparison country provided.") ++
  "\n\nAdditional user note or focus:\n" ++
  (if extraNote = "" then "None." else extraNote) ++
  "\n\nNow write the requested insight in a way that would make sense to a student exploring these countries.\n"

/-- `generate_country_insight` (lines 84-130), instrumented with the number
of generation-service calls: the `GEMINI_READY` guard returns its fixed
message before the prompt is even sent; otherwise one call is made and
every outcome is converted to a string. -/
def generateInsightT (geminiReady : Bool) (svc : String → GenOutcome)
    (primary : Option CRecord) (secondary : Option CRecord)
    (insightType : String) (detailLevel : DetailLevel) (extraNote : String) :
    String × ℕ :=
  if geminiReady = false then
    ("Gemini is not available right now. Please check the API key configuration.", 0)
  else
    match svc (insightPrompt primary secondary insightType detailLevel extraNote) with
    | .text none =>
      ("I couldn\x27t generate an insight. Try changing your inputs or trying again.", 1)
    | .text (some t) => (t.trim, 1)
    | .exn =>
      ("Sorry, something went wrong while generating the insight. Please try again.", 1)

/-! ### Concrete fixtures used by the witnesses and counterexamples -/

/-- A payload with every key missing: the JSON object `{}`. -/
def emptyPayload : Payload :=
  { name := none, capital := none, region := none, subregion := none
    population := none, area := none, languages := none, currencies := none
    flag := none }

/-- The record `get_country_data` builds from `{}`: every defensive default
fires, and both name fields are Python `None`. -/
def defaultRecord : CRecord :=
  { name := none, official_name := none, capital := "Unknown"
    region := "Unknown", subregion := "Unknown", population := 0, area := 0
    languages := [], currencies := [], flag := "" }

/-- A well-formed payload for France (the §8 end-to-end fixture of the
spec). -/
def francePayload : Payload :=
  { name := some ⟨some "France", some "French Republic"⟩
    capital := some ["Paris"]
    region := some "Europe", subregion := some "Western Europe"
    population := some 67391582, area := some 551695
    languages := some ["French"], currencies := some ["EUR"]
    flag := some "F" }

/-- A successful payload whose `name` object is missing entirely. -/
def noNamePayload : Payload :=
  { francePayload with name := none }

/-- A successful payload whose `capital` key is present and holds the empty
list. -/
def emptyCapitalPayload : Payload :=
  { francePayload with capital := some [] }

/-- A directory world that answers every name lookup with a 200 response
carrying the France payload. -/
def franceWorld : LookupWorld := fun _ => .ok [francePayload]

/-- A directory world that answers every name lookup with a 200 response
whose first payload has no `name` object. -/
def noNameWorld : LookupWorld := fun _ => .ok [noNamePayload]

/-- A directory world that answers every name lookup with a 200 response
whose first payload has `capital: []`. -/
def emptyCapitalWorld : LookupWorld := fun _ => .ok [emptyCapitalPayload]

/-- A directory world that answers every name lookup with `{}` as the first
payload. -/
def emptyPayloadWorld : LookupWorld := fun _ => .ok [emptyPayload]

/-- A bulk world where the `/all` request raises a `RequestException` while
every region request would succeed with one record. -/
def allRaisesWorld : BulkWorld :=
  { allResp := .netError
    regionResp := fun _ => .ok [⟨"France", 67391582, 551695, "Europe"⟩] }

/-- A bulk world where the `/all` request returns a non-success status and
every region request succeeds with one record. -/
def allBadStatusWorld : BulkWorld :=
  { allResp := .badStatus
    regionResp := fun _ => .ok [⟨"France", 67391582, 551695, "Europe"⟩] }

/-- A bulk world where every request fails. -/
def allDownWorld : BulkWorld :=
  { allResp := .netError, regionResp := fun _ => .badStatus }

/-- A chatbot configuration whose Gemini setup failed and whose service
would raise if it were ever called. -/
def downChatCfg : ChatCfg := { geminiReady := false, svc := fun _ => .exn }

/-! ### Helper lemmas -/

theorem mem_insertStable (r : AnalysisCountry → AnalysisCountry → Bool)
    (x z : AnalysisCountry) : ∀ l : List AnalysisCountry,
    z ∈ insertStable r x l ↔ z = x ∨ z ∈ l := by
  intro l
  induction l with
  | nil => simp [insertStable]
  | cons y ys ih =>
    by_cases h : r x y = true
    · simp [insertStable, h]
    · simp only [insertStable, if_neg h, List.mem_cons, ih]
      tauto

theorem insertStable_pairwise (r : AnalysisCountry → AnalysisCountry → Bool)
    (htot : ∀ a b, r a b = false → r b a = true)
    (htrans : ∀ a b c, r a b = true → r b c = true → r a c = true)
    (x : AnalysisCountry) : ∀ l : List AnalysisCountry,
    l.Pairwise (fun a b => r a b = true) →
    (insertStable r x l).Pairwise (fun a b => r a b = true) := by
  intro l
  induction l with
  | nil => intro _; simp [insertStable]
  | cons y ys ih =>
    intro hp
    rcases List.pairwise_cons.mp hp with ⟨hy, hys⟩
    by_cases h : r x y = true
    · rw [insertStable, if_pos h]
      refine List.pairwise_cons.mpr ⟨?_, hp⟩
      intro z hz
      rcases List.mem_cons.mp hz with hzy | hzys
      · subst hzy; exact h
      · exact htrans x y z h (hy z hzys)
    · rw [insertStable, if_neg h]
      refine List.pairwise_cons.mpr ⟨?_, ih hys⟩
      intro z hz
      rcases (mem_insertStable r x z ys).mp hz with hzx | hzys
      · rw [hzx]
        exact htot x y (Bool.eq_false_iff.mpr h)
      · exact hy z hzys

theorem sortListBy_pairwise (r : AnalysisCountry → AnalysisCountry → Bool)
    (htot : ∀ a b, r a b = false → r b a = true)
    (htrans : ∀ a b c, r a b = true → r b c = true → r a c = true)
    (l : List AnalysisCountry) :
    (sortListBy r l).Pairwise (fun a b => r a b = true) := by
  induction l with
  | nil => simp [sortListBy]
  | cons x xs ih => exact insertStable_pairwise r htot htrans x _ ih

theorem filter_insertStable {β : Type} [DecidableEq β]
    (r : AnalysisCountry → AnalysisCountry → Bool) (key : AnalysisCountry → β)
    (hNe : ∀ a b, r a b = false → key a ≠ key b)
    (k : β) (x : AnalysisCountry) : ∀ l : List AnalysisCountry,
    (insertStable r x l).filter (fun a => key a = k) =
      if key x = k then x :: l.filter (fun a => key a = k)
      else l.filter (fun a => key a = k) := by
  intro l
  induction l with
  | nil => by_cases h : key x = k <;> simp [insertStable, List.filter, h]
  | cons y ys ih =>
    by_cases h : r x y = true
    · by_cases hk : key x = k <;> simp [insertStable, h, List.filter_cons, hk]
    · have hne : key x ≠ key y := hNe x y (Bool.eq_false_iff.mpr h)
      rw [insertStable, if_neg h]
      by_cases hk : key x = k
      · have hyk : ¬ key y = k := fun hc => hne (hk.trans hc.symm)
        simp [List.filter_cons, hyk, ih, hk]
      · by_cases hyk : key y = k <;> simp [List.filter_cons, hyk, ih, hk]

theorem filter_sortListBy {β : Type} [DecidableEq β]
    (r : AnalysisCountry → AnalysisCountry → Bool) (key : AnalysisCountry → β)
    (hNe : ∀ a b, r a b = false → key a ≠ key b)
    (k : β) : ∀ l : List AnalysisCountry,
    (sortListBy r l).filter (fun a => key a = k) = l.filter (fun a => key a = k) := by
  intro l
  induction l with
  | nil => rfl
  | cons x xs ih =>
    show (insertStable r x (sortListBy r xs)).filter _ = _
    rw [filter_insertStable r key hNe k x (sortListBy r xs), ih]
    by_cases hk : key x = k <;> simp [List.filter_cons, hk]

theorem historyStr_append (h : List ChatTurn) (t : ChatTurn) :
    historyStr (h ++ [t]) = historyStr h ++ turnLine t := by
  induction h with
  | nil => simp [historyStr, String.append_empty, String.empty_append]
  | cons x xs ih => simp [historyStr, ih, String.append_assoc]

theorem runChat_closed_form (cfg : ChatCfg) (cd : Option CRecord) :
    ∀ (msgs : List String) (hist : List ChatTurn), (∀ m ∈ msgs, m ≠ "") →
    ∃ replies : List String, replies.length = msgs.length ∧
      List.foldl (chatStep cfg cd) hist msgs =
        hist ++ (msgs.zip replies).flatMap
          (fun q => [⟨.user, q.1⟩, ⟨.assistant, q.2⟩]) := by
  intro msgs
  induction msgs with
  | nil => intro hist _; exact ⟨[], rfl, by simp⟩
  | cons m ms ih =>
    intro hist h
    have hm : m ≠ "" := h m (List.mem_cons_self m ms)
    have hstep : chatStep cfg cd hist m =
        hist ++ [⟨.user, m⟩, ⟨.assistant,
          (askGeminiT cfg.geminiReady cfg.svc (handlerPrompt cd hist m)).1⟩] := by
      simp [chatStep, hm]
    obtain ⟨replies, hlen, heq⟩ :=
      ih (chatStep cfg cd hist m) (fun x hx => h x (List.mem_cons_of_mem m hx))
    refine ⟨(askGeminiT cfg.geminiReady cfg.svc (handlerPrompt cd hist m)).1 :: replies,
      by simp [hlen], ?_⟩
    rw [List.foldl_cons, heq, hstep]
    simp [List.zip_cons_cons, List.append_assoc]

/-! ### Claims -/

/-- Claim C1, counterexample: when the `/all` request raises a
`RequestException`, `get_all_countries` returns the built-in sample set
immediately — the trace contains no region request — even though every
region request would have succeeded with a non-empty result.  This refutes
the claim that every predefined region is attempted before the sample set
is used whenever the `all` endpoint fails with a request error. -/
theorem claim1_fallback_cex :
    (getAllCountriesT allRaisesWorld).1 = sampleData ∧
    (getAllCountriesT allRaisesWorld).2.1 = DataSource.fromSample ∧
    (getAllCountriesT allRaisesWorld).2.2 = [Request.reqAll] ∧
    allRaisesWorld.regionResp "africa" =
      .ok [⟨"France", 67391582, 551695, "Europe"⟩] := by
  refine ⟨rfl, rfl, rfl, rfl⟩

/-- Claim C1, amended: when the `all` endpoint fails with a non-success
status or an empty result, every predefined region is attempted (in order,
after the `all` request) before the sample set can be used, and if at least
one region request succeeds with a non-empty result the sample set is not
used; when the `all` request raises a request error, however, the sample
set is used immediately and no region is attempted. -/
theorem claim1_fallback_amended (w : BulkWorld) :
    ((w.allResp = .badStatus ∨ w.allResp = .ok []) →
      (getAllCountriesT w).2.2 = Request.reqAll :: regionsList.map Request.reqRegion ∧
      ((∃ r ∈ regionsList, ∃ d, d ≠ [] ∧ w.regionResp r = .ok d) →
        (getAllCountriesT w).2.1 = DataSource.fromRegions)) ∧
    (w.allResp = .netError →
      (getAllCountriesT w).1 = sampleData ∧
      (getAllCountriesT w).2.1 = DataSource.fromSample ∧
      (getAllCountriesT w).2.2 = [Request.reqAll]) := by
  have hregions : ∀ _h : ∃ r ∈ regionsList, ∃ d, d ≠ [] ∧ w.regionResp r = .ok d,
      (getCountriesByRegionsT w).2.1 = DataSource.fromRegions := by
    rintro ⟨r, hr, d, hd, hresp⟩
    have hcol : (regionsList.flatMap fun r =>
        match w.regionResp r with
        | .ok d => d
        | .badStatus => []
        | .netError => []) ≠ [] := by
      intro hnil
      exact hd (by simpa [hresp] using (List.flatMap_eq_nil_iff.mp hnil) r hr)
    simp only [getCountriesByRegionsT]
    rw [if_neg hcol]
  have htrace : (getCountriesByRegionsT w).2.2 = regionsList.map Request.reqRegion := by
    simp only [getCountriesByRegionsT]
    split <;> rfl
  constructor
  · rintro (hbad | hempty)
    · constructor
      · simp only [getAllCountriesT, hbad]
        rw [← htrace]
      · intro hex
        simp only [getAllCountriesT, hbad]
        rw [← hregions hex]
    · constructor
      · simp only [getAllCountriesT, hempty, if_true]
        rw [← htrace]
      · intro hex
        simp only [getAllCountriesT, hempty, if_true]
        rw [← hregions hex]
  · intro hnet
    simp [getAllCountriesT, hnet]

/-- Witness for the amended C1: with a non-success status on `/all` and all
regions answering, the trace is the `all` request followed by the five
region requests and the data comes from the regions; with a raised `/all`
request, the sample set is returned after the single `all` request. -/
theorem claim1_fallback_amended_witness :
    ((getAllCountriesT allBadStatusWorld).2.2 =
        Request.reqAll :: regionsList.map Request.reqRegion ∧
      (getAllCountriesT allBadStatusWorld).2.1 = DataSource.fromRegions) ∧
    ((getAllCountriesT allRaisesWorld).1 = sampleData ∧
      (getAllCountriesT allRaisesWorld).2.1 = DataSource.fromSample ∧
      (getAllCountriesT allRaisesWorld).2.2 = [Request.reqAll]) := by
  constructor
  · obtain ⟨h1, h2⟩ := (claim1_fallback_amended allBadStatusWorld).1 (Or.inl rfl)
    exact ⟨h1, h2 ⟨"africa", by decide,
      [⟨"France", 67391582, 551695, "Europe"⟩], by simp, rfl⟩⟩
  · exact (claim1_fallback_amended allRaisesWorld).2 rfl

/-- Claim C2, counterexample: a 200 response whose first payload lacks the
`name` object makes `get_country_data` return a record whose `name` field
is Python `None` — not a defined placeholder value — refuting the claim
that every field of a returned record has a defined value. -/
theorem claim2_total_fetch_cex :
    getCountryData noNameWorld "France" =
      some { name := none, official_name := none, capital := "Paris"
             region := "Europe", subregion := "Western Europe"
             population := 67391582, area := 551695
             languages := ["French"], currencies := ["EUR"], flag := "F" } ∧
    ∃ r, getCountryData noNameWorld "France" = some r ∧ r.name = none := by
  exact ⟨rfl, _, rfl, rfl⟩

/-- Claim C2, amended: for every input string and every directory response,
`get_country_data` returns either a normalized record or `None`, never
raises, and never yields a half-built record — every returned record has
`capital`, `region`, `subregion`, `population`, `area`, `languages`,
`currencies` and `flag` populated with their defensive placeholders when
the payload omits them; the `name` and `official_name` fields, however,
mirror the payload and are `None` (not a defined placeholder) when the
payload's `name` object lacks them. -/
theorem claim2_total_fetch_amended :
    (∀ (w : LookupWorld) (s : String),
      getCountryData w s = none ∨ ∃ r, getCountryData w s = some r) ∧
    (∀ (p : Payload) (r : CRecord), recordOfPayload p = some r →
      r.name = p.name.bind NameObj.common ∧
      r.official_name = p.name.bind NameObj.official ∧
      (p.capital = none → r.capital = "Unknown") ∧
      (p.region = none → r.region = "Unknown") ∧
      (p.subregion = none → r.subregion = "Unknown") ∧
      (p.population = none → r.population = 0) ∧
      (p.area = none → r.area = 0) ∧
      (p.languages = none → r.languages = []) ∧
      (p.currencies = none → r.currencies = []) ∧
      (p.flag = none → r.flag = "")) := by
  constructor
  · intro w s
    cases h : getCountryData w s with
    | none => exact Or.inl rfl
    | some r => exact Or.inr ⟨r, rfl⟩
  · intro p r h
    unfold recordOfPayload at h
    split at h
    · exact absurd h (by simp)
    · rename_i c _ hcap
      injection h with h
      subst h
      refine ⟨rfl, rfl, ?_, ?_, ?_, ?_, ?_, ?_, ?_, ?_⟩ <;> intro hx
      · simp [hcap] at hx
      all_goals simp [hx]
    · rename_i hcap
      injection h with h
      subst h
      refine ⟨rfl, rfl, fun _ => rfl, ?_, ?_, ?_, ?_, ?_, ?_, ?_⟩ <;>
        intro hx <;> simp [hx]

/-- Witness for the amended C2, at the empty JSON object `{}`: every
defaulted field carries its placeholder and both name fields are `None`. -/
theorem claim2_total_fetch_amended_witness :
    defaultRecord.name = emptyPayload.name.bind NameObj.common ∧
    defaultRecord.official_name = emptyPayload.name.bind NameObj.official ∧
    (emptyPayload.capital = none → defaultRecord.capital = "Unknown") ∧
    (emptyPayload.region = none → defaultRecord.region = "Unknown") ∧
    (emptyPayload.subregion = none → defaultRecord.subregion = "Unknown") ∧
    (emptyPayload.population = none → defaultRecord.population = 0) ∧
    (emptyPayload.area = none → defaultRecord.area = 0) ∧
    (emptyPayload.languages = none → defaultRecord.languages = []) ∧
    (emptyPayload.currencies = none → defaultRecord.currencies = []) ∧
    (emptyPayload.flag = none → defaultRecord.flag = "") :=
  claim2_total_fetch_amended.2 emptyPayload defaultRecord rfl

/-- Claim C3: whenever a 200 response is processed, a payload missing the
`capital` key yields a record (no failure) whose `capital` is the
placeholder `"Unknown"`, and any returned record built from a payload
missing the `languages` key has the empty list — never an absent or null
value — as its `languages` field. -/
theorem claim3_placeholders :
    (∀ (w : LookupWorld) (s : String) (p : Payload) (ps : List Payload),
      s ≠ "" → w s = .ok (p :: ps) → p.capital = none →
      ∃ r, getCountryData w s = some r ∧ r.capital = "Unknown") ∧
    (∀ (w : LookupWorld) (s : String) (p : Payload) (ps : List Payload) (r : CRecord),
      w s = .ok (p :: ps) → getCountryData w s = some r →
      p.languages = none → r.languages = []) := by
  constructor
  · intro w s p ps hs hw hcap
    have hval : getCountryData w s = recordOfPayload p := by
      unfold getCountryData getCountryDataT
      rw [if_neg hs, hw]
    rw [hval]
    unfold recordOfPayload
    rw [hcap]
    exact ⟨_, rfl, rfl⟩
  · intro w s p ps r hw hr hlang
    by_cases hs : s = ""
    · rw [hs] at hr
      exact absurd hr (by simp [getCountryData, getCountryDataT])
    · unfold getCountryData getCountryDataT at hr
      rw [if_neg hs, hw] at hr
      simp only at hr
      unfold recordOfPayload at hr
      split at hr
      · exact absurd hr (by simp)
      · injection hr with hr
        subst hr
        simp [hlang]
      · injection hr with hr
        subst hr
        simp [hlang]

/-- Witness for C3, at the empty JSON object `{}` served for `"France"`:
the built record has capital `"Unknown"` and empty languages. -/
theorem claim3_placeholders_witness :
    (∃ r, getCountryData emptyPayloadWorld "France" = some r ∧
      r.capital = "Unknown") ∧
    defaultRecord.languages = [] :=
  ⟨claim3_placeholders.1 emptyPayloadWorld "France" emptyPayload [] (by decide) rfl rfl,
   claim3_placeholders.2 emptyPayloadWorld "France" emptyPayload [] defaultRecord rfl rfl rfl⟩

/-- Claim C4, counterexample: a whitespace-only input is not empty, so
`if not country_name` does not fire: the blank string `" "` issues one
network request, and when the directory answers it with a 200 payload the
function even returns a record instead of `None`.  This refutes the claim
for blank (whitespace-only) inputs. -/
theorem claim4_blank_input_cex :
    (getCountryDataT franceWorld " ").2 = 1 ∧
    getCountryData franceWorld " " ≠ none := by
  exact ⟨rfl, by decide⟩

/-- Claim C4, amended: for the empty input string, `get_country_data`
returns `None` without issuing any network request; whitespace-only
strings are not special-cased and proceed to a lookup. -/
theorem claim4_empty_input_amended (w : LookupWorld) :
    getCountryDataT w "" = (none, 0) := rfl

/-- Claim C9: a successful payload whose `capital` key holds the empty
list makes the `[0]` indexing raise inside the guarded block; the bare
`except` converts this to `None`, so the lookup is reported as not found
rather than producing a record with capital `"Unknown"`. -/
theorem claim9_empty_capital (w : LookupWorld) (s : String) (p : Payload)
    (ps : List Payload) (hw : w s = .ok (p :: ps)) (hcap : p.capital = some []) :
    getCountryData w s = none := by
  by_cases hs : s = ""
  · simp [getCountryData, getCountryDataT, hs]
  · unfold getCountryData getCountryDataT
    rw [if_neg hs, hw]
    simp only
    unfold recordOfPayload
    rw [hcap]

/-- Witness for C9: the France-like payload with `capital: []` yields
`None`. -/
theorem claim9_empty_capital_witness :
    getCountryData emptyCapitalWorld "France" = none :=
  claim9_empty_capital emptyCapitalWorld "France" emptyCapitalPayload [] rfl rfl

/-- Claim C5: the dashboard sort is stable — on the claim's three records,
population-descending sorting yields C, B, A with the tied B kept before A;
in general, for each sort key the subsequence of records sharing any fixed
key value is preserved from the input (stability), population and area sort
descending, and name sorts ascending. -/
theorem claim5_stable_sort :
    sortCountries .population
        [⟨"B", 5, 0, ""⟩, ⟨"A", 5, 0, ""⟩, ⟨"C", 10, 0, ""⟩] =
      [⟨"C", 10, 0, ""⟩, ⟨"B", 5, 0, ""⟩, ⟨"A", 5, 0, ""⟩] ∧
    (∀ (l : List AnalysisCountry) (k : ℕ),
      (sortCountries .population l).filter (fun c => c.population = k) =
        l.filter (fun c => c.population = k)) ∧
    (∀ (l : List AnalysisCountry) (k : ℚ),
      (sortCountries .area l).filter (fun c => c.area = k) =
        l.filter (fun c => c.area = k)) ∧
    (∀ (l : List AnalysisCountry) (k : String),
      (sortCountries .name l).filter (fun c => c.name = k) =
        l.filter (fun c => c.name = k)) ∧
    (∀ l : List AnalysisCountry,
      (sortCountries .population l).Pairwise (fun a b => b.population ≤ a.population)) ∧
    (∀ l : List AnalysisCountry,
      (sortCountries .area l).Pairwise (fun a b => b.area ≤ a.area)) ∧
    (∀ l : List AnalysisCountry,
      (sortCountries .name l).Pairwise (fun a b => a.name ≤ b.name)) := by
  refine ⟨by decide, ?_, ?_, ?_, ?_, ?_, ?_⟩
  · intro l k
    exact filter_sortListBy _ AnalysisCountry.population
      (fun a b h => by
        simp only [decide_eq_false_iff_not, not_le] at h
        exact Nat.ne_of_lt h) k l
  · intro l k
    exact filter_sortListBy _ AnalysisCountry.area
      (fun a b h => by
        simp only [decide_eq_false_iff_not, not_le] at h
        exact ne_of_lt h) k l
  · intro l k
    exact filter_sortListBy _ AnalysisCountry.name
      (fun a b h => by
        simp only [decide_eq_false_iff_not, not_le] at h
        exact ne_of_gt h) k l
  · intro l
    have := sortListBy_pairwise (fun a b => decide (b.population ≤ a.population))
      (fun a b h => by
        simp only [decide_eq_false_iff_not, not_le] at h
        exact decide_eq_true (le_of_lt h))
      (fun a b c h1 h2 => by
        simp only [decide_eq_true_eq] at h1 h2 ⊢
        exact le_trans h2 h1) l
    exact this.imp fun h => of_decide_eq_true h
  · intro l
    have := sortListBy_pairwise (fun a b => decide (b.area ≤ a.area))
      (fun a b h => by
        simp only [decide_eq_false_iff_not, not_le] at h
        exact decide_eq_true (le_of_lt h))
      (fun a b c h1 h2 => by
        simp only [decide_eq_true_eq] at h1 h2 ⊢
        exact le_trans h2 h1) l
    exact this.imp fun h => of_decide_eq_true h
  · intro l
    have := sortListBy_pairwise (fun a b => decide (a.name ≤ b.name))
      (fun a b h => by
        simp only [decide_eq_false_iff_not, not_le] at h
        exact decide_eq_true (le_of_lt h))
      (fun a b c h1 h2 => by
        simp only [decide_eq_true_eq] at h1 h2 ⊢
        exact le_trans h1 h2) l
    exact this.imp fun h => of_decide_eq_true h

/-- Claim C6: the four summary metrics of the dashboard equal the
spec-worded statistics of the shown (post-truncation) list — and, on a
concrete input where the cap bites, they differ from the statistics of the
pre-truncation list, so they are indeed computed after truncation. -/
theorem claim6_stats_post_truncation :
    (∀ (data : List AnalysisCountry) (f : FilterSpec),
      ((dashboard data f).totalCount, (dashboard data f).totalPopulation,
        (dashboard data f).averagePopulation, (dashboard data f).totalArea) =
      specStats (dashboard data f).shown) ∧
    (dashboard [⟨"X", 1, 0, "R"⟩, ⟨"Y", 2, 0, "R"⟩]
        ⟨"All", 0, 1, .population⟩).totalPopulation = 2 ∧
    (specStats (sortCountries .population
        (filterCountries "All" 0 [⟨"X", 1, 0, "R"⟩, ⟨"Y", 2, 0, "R"⟩]))).2.1 = 3 := by
  refine ⟨fun data f => rfl, by decide, by decide⟩

/-- Claim C7: after any sequence of N (non-empty) user submissions, the
transcript is exactly the user turns interleaved with one assistant turn
each — 2N entries, user then assistant, in submission order — whatever the
Gemini configuration and service outcomes are; and one further submission
only appends its pair of turns, so the transcript only ever grows. -/
theorem claim7_transcript (cfg : ChatCfg) (cd : Option CRecord)
    (msgs : List String) (h : ∀ m ∈ msgs, m ≠ "") :
    (∃ replies : List String, replies.length = msgs.length ∧
      runChat cfg cd msgs = (msgs.zip replies).flatMap
        (fun q => [⟨.user, q.1⟩, ⟨.assistant, q.2⟩])) ∧
    (runChat cfg cd msgs).length = 2 * msgs.length ∧
    (∀ m : String, m ≠ "" → ∃ reply : String,
      runChat cfg cd (msgs ++ [m]) =
        runChat cfg cd msgs ++ [⟨.user, m⟩, ⟨.assistant, reply⟩]) := by
  obtain ⟨replies, hlen, heq⟩ := runChat_closed_form cfg cd msgs [] h
  have hform : runChat cfg cd msgs = (msgs.zip replies).flatMap
      (fun q => [⟨.user, q.1⟩, ⟨.assistant, q.2⟩]) := by
    rw [runChat, heq, List.nil_append]
  refine ⟨⟨replies, hlen, hform⟩, ?_, ?_⟩
  · rw [hform, List.length_flatMap]
    have : (List.map (List.length ∘ fun q : String × String =>
        ([⟨.user, q.1⟩, ⟨.assistant, q.2⟩] : List ChatTurn)) (msgs.zip replies)) =
        List.replicate (msgs.zip replies).length 2 := by
      rw [← List.map_const]
      rfl
    rw [this, List.sum_replicate, List.length_zip, hlen, Nat.min_self, smul_eq_mul,
      Nat.mul_comm]
  · intro m hm
    refine ⟨(askGeminiT cfg.geminiReady cfg.svc
      (handlerPrompt cd (runChat cfg cd msgs) m)).1, ?_⟩
    rw [runChat, List.foldl_append]
    show chatStep cfg cd (runChat cfg cd msgs) m = _
    simp [chatStep, hm]

/-- Witness for C7 at a concrete session: one submission `"hi"` against a
failed Gemini configuration still yields a user/assistant pair, a
transcript of length 2, and growth by exactly one pair on the next
submission. -/
theorem claim7_transcript_witness :
    (∃ replies : List String, replies.length = (["hi"] : List String).length ∧
      runChat downChatCfg none ["hi"] = ((["hi"] : List String).zip replies).flatMap
        (fun q => [⟨.user, q.1⟩, ⟨.assistant, q.2⟩])) ∧
    (runChat downChatCfg none ["hi"]).length = 2 * (["hi"] : List String).length ∧
    (∀ m : String, m ≠ "" → ∃ reply : String,
      runChat downChatCfg none (["hi"] ++ [m]) =
        runChat downChatCfg none ["hi"] ++ [⟨.user, m⟩, ⟨.assistant, reply⟩]) :=
  claim7_transcript downChatCfg none ["hi"] (by simp)

/-- Claim C8: with the Gemini credential absent (`GEMINI_READY` false),
both generation wrappers return their fixed unavailability message with
zero generation-service calls — they never both attempt a call and report
unavailability — while the country fetchers are unaffected: a successful
directory lookup still yields a record, and the bulk fetch always yields a
non-empty country list. -/
theorem claim8_service_unavailable :
    (∀ (svc : String → GenOutcome) (prompt : String),
      askGeminiT false svc prompt =
        ("Gemini is not available because the API key is not configured.", 0)) ∧
    (∀ (svc : String → GenOutcome) (primary secondary : Option CRecord)
        (insightType : String) (dl : DetailLevel) (note : String),
      generateInsightT false svc primary secondary insightType dl note =
        ("Gemini is not available right now. Please check the API key configuration.", 0)) ∧
    (∀ (w : LookupWorld) (s : String) (p : Payload) (ps : List Payload),
      s ≠ "" → w s = .ok (p :: ps) → p.capital ≠ some [] →
      ∃ r, getCountryData w s = some r) ∧
    (∀ bw : BulkWorld, (getAllCountriesT bw).1 ≠ []) := by
  refine ⟨fun svc prompt => rfl, fun svc p sd it dl n => rfl, ?_, ?_⟩
  · intro w s p ps hs hw hcap
    have hval : getCountryData w s = recordOfPayload p := by
      unfold getCountryData getCountryDataT
      rw [if_neg hs, hw]
    rw [hval]
    unfold recordOfPayload
    match hc : p.capital with
    | none => exact ⟨_, rfl⟩
    | some [] => exact absurd hc hcap
    | some (c :: cs) => exact ⟨_, rfl⟩
  · intro bw
    have hreg2 : (getCountriesByRegionsT bw).1 ≠ [] := by
      simp only [getCountriesByRegionsT]
      split
      · simp [sampleData]
      · rename_i hcol
        exact hcol
    rcases hreg : getCountriesByRegionsT bw with ⟨d, src, reqs⟩
    rw [hreg] at hreg2
    rcases hall : bw.allResp with data | _ | _
    · by_cases hd : data = []
      · subst hd
        simp only [getAllCountriesT, hall, if_true, hreg]
        exact hreg2
      · simp only [getAllCountriesT, hall, if_neg hd]
        exact hd
    · simp only [getAllCountriesT, hall, hreg]
      exact hreg2
    · simp only [getAllCountriesT, hall]
      simp [sampleData]

/-- Witness for C8: concrete instances of all four conjuncts — the failed
configuration answers without any service call, the France lookup still
succeeds, and the fully-failing bulk world still produces countries. -/
theorem claim8_service_unavailable_witness :
    askGeminiT false (fun _ => .exn) "p" =
      ("Gemini is not available because the API key is not configured.", 0) ∧
    generateInsightT false (fun _ => .exn) none none "Travel-style overview" .two "" =
      ("Gemini is not available right now. Please check the API key configuration.", 0) ∧
    (∃ r, getCountryData franceWorld "France" = some r) ∧
    (getAllCountriesT allDownWorld).1 ≠ [] :=
  ⟨claim8_service_unavailable.1 (fun _ => .exn) "p",
   claim8_service_unavailable.2.1 (fun _ => .exn) none none "Travel-style overview" .two "",
   claim8_service_unavailable.2.2.1 franceWorld "France" francePayload [] (by decide) rfl
     (by decide),
   claim8_service_unavailable.2.2.2 allDownWorld⟩

/-- Claim C10: every prompt composed by the chat handler contains the
latest user message twice — once inside the serialized history (the user
turn is appended to the history before `build_prompt` runs) and once in
the `User's latest question` section. -/
theorem claim10_message_twice (cd : Option CRecord) (hist : List ChatTurn)
    (m : String) :
    ∃ a b c : String, handlerPrompt cd hist m = a ++ m ++ b ++ m ++ c := by
  refine ⟨"\n" ++ chatSystemInstructions ++ "\n\nConversation so far:\n" ++
      historyStr hist ++ "USER" ++ ": ",
    "\n" ++ "\n\nStructured REST Countries API info:\n" ++ countryInfoStr cd ++
      "\n\nUser\x27s latest question:\n",
    "\n\nNow respond as the assistant.\n", ?_⟩
  unfold handlerPrompt buildPrompt
  rw [historyStr_append]
  show _ ++ (_ ++ turnLine ⟨.user, m⟩) ++ _ ++ _ ++ _ ++ _ ++ _ = _
  unfold turnLine roleUpper
  simp only [String.append_assoc]
